import Mathlib

/-!
Verification of the boiling-learning core: the chunked path mapper and path
pattern resolver of boiling_learning/io/io.py, the dataset-triplet saver and
loader of the same module, and the canonical-table derivation of
boiling_learning/preprocessing/ExperimentVideo.py.  Python functions are
shallowly embedded as Lean functions; filesystem paths are lists of segments,
machine floats are exact rationals, and Python exceptions are modelled by
Option and Except results.
-/

namespace BoilingLearning

/-- A filesystem path, modelled as its list of segments, outermost first. -/
abbrev FsPath := List String

/-! Python new-style format strings, as parsed by string.Formatter. -/

/-- One token of a Python new-style format string: either a literal piece or a
named replacement field. -/
inductive FmtTok where
  | lit (s : String)
  | field (name : String)
deriving DecidableEq, Repr

/-- The named replacement fields of a format string, in order. -/
def fieldNames (toks : List FmtTok) : List String :=
  toks.filterMap fun t =>
    match t with
    | .field n => some n
    | .lit _ => none

/-- Python str.format called with the single keyword argument key = val: every
replacement field must be named key, otherwise Python raises KeyError,
modelled as none; matching fields are substituted by val. -/
def formatNamed (toks : List FmtTok) (key : String) (val : String) : Option String :=
  if toks.all fun t =>
      match t with
      | .field n => n == key
      | .lit _ => true
  then some (String.join (toks.map fun t =>
      match t with
      | .field _ => val
      | .lit s => s))
  else none

/-! chunked_filename_pattern from boiling_learning/io/io.py. -/

/-- itertools.accumulate with operator.mul: the running products of a list,
starting from the accumulator acc (the source uses acc = 1, so the first
element of the result is the first chunk size itself). -/
def accumulateMul (acc : Int) : List Int → List Int
  | [] => []
  | c :: cs => (acc * c) :: accumulateMul (acc * c) cs

/-- The default chunk_name template of chunked_filename_pattern,
min_index-max_index, formatted with the default min_index_key and
max_index_key. -/
def chunkDirName (minIndex maxIndex : Int) : String :=
  toString minIndex ++ "-" ++ toString maxIndex

/-- One iteration of the loop in chunked_filename_pattern: prepend the
directory segment of the bucket of width chunk_size that contains index.
Python floor division is Int.fdiv; division by a zero chunk size raises
ZeroDivisionError, modelled as none. -/
def chunkStep (index : Int) (current : FsPath) (chunk_size : Int) : Option FsPath :=
  if chunk_size = 0 then none
  else
    let min_index := index.fdiv chunk_size * chunk_size
    let max_index := min_index + chunk_size - 1
    some (chunkDirName min_index max_index :: current)

/-- Modelled from the spec: bl_utils.ensure_resolved (its source is not under
src/) anchors a relative path under an optional root directory. -/
def ensure_resolved (p : FsPath) (root : Option FsPath) : FsPath :=
  match root with
  | none => p
  | some r => r ++ p

/-- chunked_filename_pattern from io.py, applied to an index.  The chunk_name,
min_index_key and max_index_key parameters are fixed at their source defaults;
the filename template is a format-string token list formatted with the single
key index_key.  The result is none exactly when the Python call raises:
KeyError from a foreign replacement field in filename, or ZeroDivisionError
from a zero chunk size. -/
def chunked_filename_pattern (chunk_sizes : List Int) (filename : List FmtTok)
    (index_key : String) (root : Option FsPath) (index : Int) : Option FsPath := do
  let leaf ← formatNamed filename index_key (toString index)
  let chunks := accumulateMul 1 chunk_sizes
  let path ← chunks.foldlM (chunkStep index) [leaf]
  pure (ensure_resolved path root)

/-! make_callable_filename_pattern from boiling_learning/io/io.py. -/

/-- One token of a Python string seen through old-style percent formatting:
either a literal piece or a conversion specifier. -/
inductive PctTok where
  | lit (s : String)
  | conv
deriving DecidableEq, Repr

/-- A Python string as used by make_callable_filename_pattern: its new-style
format tokens and its old-style percent tokens, two views of the same text. -/
structure PyStr where
  toks : List FmtTok
  pctToks : List PctTok
deriving Repr

/-- Old-style formatting s mod index: Python raises TypeError, modelled as
none, unless the string has exactly one conversion specifier. -/
def pctFormat (s : PyStr) (index : Int) : Option String :=
  if s.pctToks.countP (fun t => t == PctTok.conv) = 1 then
    some (String.join (s.pctToks.map fun t =>
      match t with
      | .lit l => l
      | .conv => toString index))
  else none

/-- The filename_pattern argument of make_callable_filename_pattern: a
callable producing a path from an index, or a string template. -/
inductive FilenamePattern where
  | func (f : Int → FsPath)
  | str (s : PyStr)

/-- The second component of the result of make_callable_filename_pattern:
either a callable index-to-path mapping (whose later invocations may still
raise, modelled by Option) or the original template returned unchanged. -/
inductive ResolvedPattern where
  | fn (f : Int → Option FsPath)
  | original (p : FilenamePattern)

/-- Modelled from the spec: bl_utils.ensure_parent (its source is not under
src/) anchors a path under a root directory; the directory creation it also
performs is a side effect outside this model. -/
def ensure_parent (p : FsPath) (root : FsPath) : FsPath := root ++ p

/-- The condition index_key is not None and index_key occurs among the named
replacement fields of the string. -/
def hasNamedKey (s : PyStr) (index_key : Option String) : Bool :=
  match index_key with
  | some k => (fieldNames s.toks).contains k
  | none => false

/-- make_callable_filename_pattern from io.py.  A callable is wrapped to anchor
its results under outputdir; a string whose named fields include index_key is
compiled into a new-style formatter; any other string is probed once with
old-style substitution at index 0, and on TypeError the original template is
returned with a false flag. -/
def make_callable_filename_pattern (outputdir : FsPath) (pattern : FilenamePattern)
    (index_key : Option String) : Bool × ResolvedPattern :=
  match pattern with
  | .func f =>
      (true, .fn fun index => some (ensure_parent (f index) outputdir))
  | .str s =>
      if hasNamedKey s index_key then
        (true, .fn fun index =>
          (formatNamed s.toks (index_key.getD "") (toString index)).map
            fun r => ensure_parent [r] outputdir)
      else
        match pctFormat s 0 with
        | none => (false, .original pattern)
        | some _ =>
            (true, .fn fun index =>
              (pctFormat s index).map fun r => ensure_parent [r] outputdir)

/-! Dataset-triplet persistence from boiling_learning/io/io.py. -/

/-- The filesystem as seen by savers and loaders: an association list from
paths to stored artifacts, most recent write first. -/
abbrev Store (α : Type) := List (FsPath × α)

/-- Write an artifact at a path. -/
def Store.write {α : Type} (fs : Store α) (p : FsPath) (x : α) : Store α :=
  (p, x) :: fs

/-- Read the artifact at a path, if any. -/
def Store.read {α : Type} (fs : Store α) (p : FsPath) : Option α :=
  match fs with
  | [] => none
  | (q, x) :: rest => if q = p then some x else Store.read rest p

/-- A train, validation, test dataset triplet; validation may legitimately be
absent (the DatasetTriplet type of io.py, whose middle component is
Optional). -/
structure DatasetTriplet (α : Type) where
  train : α
  val : Option α
  test : α
deriving DecidableEq, Repr

/-- saver_dataset_triplet from io.py: writes train under the train sub-path and
test under the test sub-path unconditionally, and validation under the val
sub-path only when it is present.  The element saver threads the filesystem
state. -/
def saver_dataset_triplet {α : Type} (saver : α → FsPath → Store α → Store α)
    (ds : DatasetTriplet α) (path : FsPath) (fs : Store α) : Store α :=
  let fs1 := saver ds.train (path ++ ["train"]) fs
  let fs2 :=
    match ds.val with
    | some v => saver v (path ++ ["val"]) fs1
    | none => fs1
  saver ds.test (path ++ ["test"]) fs2

/-- loader_dataset_triplet from io.py: loads the train, val and test sub-paths
independently with a bool-flagged element loader; overall success is the
conjunction of the train and test successes, and a failed validation load
forces the validation slot to none. -/
def loader_dataset_triplet {α : Type} (loader : FsPath → Bool × Option α)
    (path : FsPath) : Bool × (Option α × Option α × Option α) :=
  let rt := loader (path ++ ["train"])
  let rv := loader (path ++ ["val"])
  let rte := loader (path ++ ["test"])
  (rt.1 && rte.1, (rt.2, if rv.1 then rv.2 else none, rte.2))

/-! The ExperimentVideo class of
boiling_learning/preprocessing/ExperimentVideo.py, restricted to the state
that table derivation reads and writes. -/

/-- VideoData: the categories mapping plus the time basis (frame rate,
reference frame index and the elapsed time at the reference frame), each
optionally present.  Numeric fields are modelled as exact rationals. -/
structure VideoData where
  categories : List (String × String)
  fps : Option ℚ
  ref_index : Option ℤ
  ref_elapsed_time : Option ℚ
deriving DecidableEq, Repr

/-- The canonical per-video table.  The name and the category values are
broadcast to every row, so they are stored once; index is the list of retained
frame indices; the elapsed-time column (seconds, exact rationals) and the path
column are optional. -/
structure DataFrame where
  name : String
  index : List ℕ
  categories : List (String × String)
  elapsed_time : Option (List ℚ)
  path : Option (List FsPath)
deriving DecidableEq, Repr

/-- The exceptions make_dataframe and convert_dataframe_type can raise. -/
inductive DfError where
  | missingConfiguration
  | missingTimeBasis
  | keyError
deriving DecidableEq, Repr

/-- convert_dataframe_type from ExperimentVideo.py, with categories_as_int
fixed at its default false.  The source builds the column-to-dtype mapping,
restricts it to the columns present, and casts: the casts of the index, path,
name and category columns are value-preserving at this level of modelling, and
the cast of elapsed_time to integer seconds is commented out in the source
(flagged there as a bug that would round elapsed times).  The source then
accesses the elapsed-time column unconditionally to convert timedeltas to
float total seconds (the identity on this rational-seconds model), so a table
without that column raises KeyError. -/
def convert_dataframe_type (df : DataFrame) : Except DfError DataFrame :=
  match df.elapsed_time with
  | none => .error .keyError
  | some _ => .ok df

/-- The state of an ExperimentVideo relevant to table derivation: its name,
the frame count reported by the video backend, the optional VideoData, the
cached table df, the table persisted at df_path (none when df_path.is_file()
is false), whether a path column is configured (column_names.path is not
None), and the frame files found by glob_frames sorted by stem. -/
structure ExperimentVideo where
  name : String
  frameCount : ℕ
  data : Option VideoData
  df : Option DataFrame
  dfFile : Option DataFrame
  pathColumn : Bool
  frameFiles : List FsPath
deriving DecidableEq, Repr

/-- set_video_data from ExperimentVideo.py: stores the new VideoData on the
record (the mapping form of the argument is converted to a VideoData first,
which this model takes as given).  It does not touch the cached df. -/
def set_video_data (ev : ExperimentVideo) (d : VideoData) : ExperimentVideo :=
  { ev with data := some d }

/-- The elapsed-time column computed by make_dataframe when the full time
basis is available: ref_elapsed_time plus delta times (index - ref_index),
with delta the reciprocal of the frame rate. -/
def elapsedTimes (fps : ℚ) (refIdx : ℤ) (refT : ℚ) (indices : List ℕ) : List ℚ :=
  indices.map fun index : ℕ => refT + 1 / fps * ((index : ℚ) - (refIdx : ℚ))

/-- The derivation tail of make_dataframe from ExperimentVideo.py (with
categories_as_int fixed at its default false): build the data columns, with
the elapsed-time column present exactly when fps, ref_index and
ref_elapsed_time all are, raising when it is absent and enforce_time is set;
convert the column types; store the table on the record when inplace.  Errors
model the exceptions raised by the source. -/
def deriveFrame (ev : ExperimentVideo) (data : VideoData)
    (enforce_time inplace : Bool) : Except DfError (DataFrame × ExperimentVideo) :=
  let indices := List.range ev.frameCount
  let elapsedCol : Option (List ℚ) :=
    match data.fps, data.ref_index, data.ref_elapsed_time with
    | some fps, some refIdx, some refT =>
        some (elapsedTimes fps refIdx refT indices)
    | _, _, _ => none
  if elapsedCol.isNone && enforce_time then
    .error .missingTimeBasis
  else
    match convert_dataframe_type
        { name := ev.name
          index := indices
          categories := data.categories
          elapsed_time := elapsedCol
          path := if ev.pathColumn then some ev.frameFiles else none } with
    | .error e => .error e
    | .ok df =>
        if inplace then .ok (df, { ev with df := some df })
        else .ok (df, ev)

/-- make_dataframe from ExperimentVideo.py: the branches before the
derivation, in source order.  Return the cached df unless recalculate; if
exist_load and the df file exists, delegate to load_df (which itself returns
the cached df when one is present, since its overwrite argument defaults to
false) and return; raise unless VideoData is set; otherwise derive. -/
def make_dataframe (ev : ExperimentVideo)
    (recalculate exist_load enforce_time inplace : Bool) :
    Except DfError (DataFrame × ExperimentVideo) :=
  match if recalculate then none else ev.df with
  | some df => .ok (df, ev)
  | none =>
    match if exist_load then ev.dfFile else none with
    | some dfile =>
        match ev.df with
        | some df => .ok (df, ev)
        | none => .ok (dfile, { ev with df := some dfile })
    | none =>
      match ev.data with
      | none => .error .missingConfiguration
      | some data => deriveFrame ev data enforce_time inplace

/-! Helper lemmas about the chunked path mapper. -/

/-- The directory segment produced for the bucket of width p containing
index. -/
def bucketSegment (index p : Int) : String :=
  chunkDirName (index.fdiv p * p) (index.fdiv p * p + p - 1)

lemma chunkStep_of_ne_zero (index : Int) (current : FsPath) (p : Int) (hp : p ≠ 0) :
    chunkStep index current p = some (bucketSegment index p :: current) := by
  simp [chunkStep, hp, bucketSegment, chunkDirName]

lemma foldlM_chunkStep_eq (index : Int) (ps : List Int) (init : FsPath)
    (h : ∀ p ∈ ps, p ≠ 0) :
    List.foldlM (chunkStep index) init ps =
      some (ps.reverse.map (bucketSegment index) ++ init) := by
  induction ps generalizing init with
  | nil => rfl
  | cons p ps ih =>
      have hp : p ≠ 0 := h p (List.mem_cons_self _ _)
      have hrest : ∀ q ∈ ps, q ≠ 0 := fun q hq => h q (List.mem_cons_of_mem _ hq)
      rw [List.foldlM_cons, chunkStep_of_ne_zero index init p hp]
      simp only [Option.some_bind, ih _ hrest]
      simp

lemma foldlM_chunkStep_none (index : Int) (ps : List Int) (h : (0 : Int) ∈ ps)
    (init : FsPath) : List.foldlM (chunkStep index) init ps = none := by
  induction ps generalizing init with
  | nil => simp at h
  | cons p ps ih =>
      by_cases hp : p = 0
      · subst hp
        simp [List.foldlM_cons, chunkStep]
      · have hmem : (0 : Int) ∈ ps := by
          rcases List.mem_cons.mp h with h0 | h1
          · exact absurd h0.symm hp
          · exact h1
        rw [List.foldlM_cons, chunkStep_of_ne_zero index init p hp]
        simp [ih hmem]

lemma accumulateMul_pos (cs : List Int) :
    ∀ acc : Int, 0 < acc → (∀ c ∈ cs, 1 ≤ c) →
      ∀ p ∈ accumulateMul acc cs, 0 < p := by
  induction cs with
  | nil => intro acc _ _ p hp; simp [accumulateMul] at hp
  | cons c cs ih =>
      intro acc hacc hcs p hp
      have hc : (0 : Int) < c := lt_of_lt_of_le one_pos (hcs c (List.mem_cons_self _ _))
      have hmul : 0 < acc * c := mul_pos hacc hc
      rcases List.mem_cons.mp hp with h0 | h1
      · exact h0 ▸ hmul
      · exact ih (acc * c) hmul (fun d hd => hcs d (List.mem_cons_of_mem _ hd)) p h1

lemma accumulateMul_ne_zero (cs : List Int) :
    ∀ acc : Int, acc ≠ 0 → (∀ c ∈ cs, c ≠ 0) →
      ∀ p ∈ accumulateMul acc cs, p ≠ 0 := by
  induction cs with
  | nil => intro acc _ _ p hp; simp [accumulateMul] at hp
  | cons c cs ih =>
      intro acc hacc hcs p hp
      have hc : c ≠ 0 := hcs c (List.mem_cons_self _ _)
      have hmul : acc * c ≠ 0 := mul_ne_zero hacc hc
      rcases List.mem_cons.mp hp with h0 | h1
      · exact h0 ▸ hmul
      · exact ih (acc * c) hmul (fun d hd => hcs d (List.mem_cons_of_mem _ hd)) p h1

lemma zero_mem_accumulateMul (cs : List Int) :
    ∀ acc : Int, (0 : Int) ∈ cs → (0 : Int) ∈ accumulateMul acc cs := by
  induction cs with
  | nil => intro acc h; simp at h
  | cons c cs ih =>
      intro acc h
      by_cases hc : c = 0
      · subst hc
        simp [accumulateMul]
      · have hmem : (0 : Int) ∈ cs := by
          rcases List.mem_cons.mp h with h0 | h1
          · exact absurd h0.symm hc
          · exact h1
        exact List.mem_cons.mpr (Or.inr (ih (acc * c) hmem))

/-- C3: for every sequence of chunk sizes each at least 1 and every
non-negative index, the chunked path mapper computes the cumulative products
and, for each product p taken in increasing order, prepends a directory
segment named from bucket_min = (index / p) * p and
bucket_max = bucket_min + p - 1 (so the largest product is outermost), with
the leaf filename formatted from the index; when chunk_sizes is empty the
mapped path is the leaf filename alone. -/
theorem chunked_filename_pattern_spec (chunk_sizes : List Int)
    (filename : List FmtTok) (index_key : String) (index : Int) (leaf : String)
    (hpos : ∀ c ∈ chunk_sizes, 1 ≤ c) (_hidx : 0 ≤ index)
    (hleaf : formatNamed filename index_key (toString index) = some leaf) :
    chunked_filename_pattern chunk_sizes filename index_key none index =
      some ((accumulateMul 1 chunk_sizes).reverse.map (bucketSegment index)
        ++ [leaf]) ∧
    (chunk_sizes = [] →
      chunked_filename_pattern chunk_sizes filename index_key none index =
        some [leaf]) := by
  have hnz : ∀ p ∈ accumulateMul 1 chunk_sizes, p ≠ 0 := fun p hp =>
    ne_of_gt (accumulateMul_pos chunk_sizes 1 one_pos hpos p hp)
  constructor
  · simp [chunked_filename_pattern, hleaf,
      foldlM_chunkStep_eq index _ _ hnz, ensure_resolved]
  · intro h
    subst h
    simp [chunked_filename_pattern, hleaf, accumulateMul, ensure_resolved]

theorem chunked_filename_pattern_spec_witness :
    chunked_filename_pattern [10, 10]
        [FmtTok.lit "frame", FmtTok.field "index", FmtTok.lit ".png"]
        "index" none 123 = some ["100-199", "120-129", "frame123.png"] := by
  have h := (chunked_filename_pattern_spec [10, 10]
    [FmtTok.lit "frame", FmtTok.field "index", FmtTok.lit ".png"]
    "index" 123 "frame123.png" (by decide) (by decide) (by decide)).1
  rw [h]
  decide

/-- C4 counterexample: a chunk-size sequence containing -1, which is smaller
than 1, is not rejected: the mapper happily produces a path for index 5. -/
theorem chunked_filename_pattern_no_rejection :
    chunked_filename_pattern [-1]
        [FmtTok.lit "frame", FmtTok.field "index", FmtTok.lit ".png"]
        "index" none 5 = some ["5-3", "frame5.png"] := by
  decide

/-- C4 amended: the chunked path mapper does not validate chunk sizes.  Any
sequence of nonzero chunk sizes, negative ones included, still produces a
path, while a sequence containing a zero chunk size fails only when the
mapping is invoked (a ZeroDivisionError at the floor division), not by an
up-front rejection. -/
theorem chunked_filename_pattern_no_validation (chunk_sizes : List Int)
    (filename : List FmtTok) (index_key : String) (index : Int) (leaf : String)
    (hleaf : formatNamed filename index_key (toString index) = some leaf) :
    ((∀ c ∈ chunk_sizes, c ≠ 0) →
      (chunked_filename_pattern chunk_sizes filename index_key none index).isSome
        = true) ∧
    ((0 : Int) ∈ chunk_sizes →
      chunked_filename_pattern chunk_sizes filename index_key none index
        = none) := by
  constructor
  · intro h
    have hnz := accumulateMul_ne_zero chunk_sizes 1 one_ne_zero h
    simp [chunked_filename_pattern, hleaf,
      foldlM_chunkStep_eq index _ _ hnz]
  · intro h
    simp [chunked_filename_pattern, hleaf,
      foldlM_chunkStep_none index _ (zero_mem_accumulateMul chunk_sizes 1 h)]

theorem chunked_filename_pattern_no_validation_witness :
    (chunked_filename_pattern [-2]
        [FmtTok.lit "frame", FmtTok.field "index", FmtTok.lit ".png"]
        "index" none 7).isSome = true ∧
    chunked_filename_pattern [3, 0]
        [FmtTok.lit "frame", FmtTok.field "index", FmtTok.lit ".png"]
        "index" none 7 = none := by
  constructor
  · exact (chunked_filename_pattern_no_validation [-2] _ "index" 7 "frame7.png"
      (by decide)).1 (by decide)
  · exact (chunked_filename_pattern_no_validation [3, 0] _ "index" 7 "frame7.png"
      (by decide)).2 (by decide)

/-- C8: resolution returns a true flag with an index-to-path function anchored
under the output root whenever the template is a callable, or a string whose
named replacement fields include index_key; any remaining string is probed
once with old-style substitution at index 0, and when that substitution raises
TypeError the result is a false flag together with the original template
unchanged. -/
theorem make_callable_filename_pattern_spec (outputdir : FsPath)
    (index_key : Option String) :
    (∀ f : Int → FsPath,
      make_callable_filename_pattern outputdir (.func f) index_key =
        (true, .fn fun index => some (ensure_parent (f index) outputdir))) ∧
    (∀ (s : PyStr) (k : String), index_key = some k →
      (fieldNames s.toks).contains k = true →
      make_callable_filename_pattern outputdir (.str s) index_key =
        (true, .fn fun index =>
          (formatNamed s.toks k (toString index)).map
            fun r => ensure_parent [r] outputdir)) ∧
    (∀ s : PyStr, hasNamedKey s index_key = false → pctFormat s 0 = none →
      make_callable_filename_pattern outputdir (.str s) index_key =
        (false, .original (.str s))) := by
  refine ⟨fun f => rfl, fun s k hk hmem => ?_, fun s h hp => ?_⟩
  · subst hk
    have hc : hasNamedKey s (some k) = true := hmem
    simp [make_callable_filename_pattern, hc]
  · simp [make_callable_filename_pattern, h, hp]

/-- A concrete template string with no replacement field and no conversion
specifier, as a PyStr. -/
def plainStr : PyStr :=
  { toks := [FmtTok.lit "frame.png"], pctToks := [PctTok.lit "frame.png"] }

theorem make_callable_filename_pattern_spec_witness :
    make_callable_filename_pattern ["out"] (.str plainStr) (some "index") =
      (false, .original (.str plainStr)) :=
  (make_callable_filename_pattern_spec ["out"] (some "index")).2.2
    plainStr (by decide) (by decide)

/-- C2: the triplet loader loads the train, val and test sub-paths
independently with the element bool-flagged loader; its overall success flag
is the conjunction of the train and test successes; a failed validation load
forces the validation slot of the returned triplet to none; and a validation
failure alone never makes the overall result unsuccessful. -/
theorem loader_dataset_triplet_spec {α : Type}
    (loader : FsPath → Bool × Option α) (path : FsPath) :
    (loader_dataset_triplet loader path).1 =
        ((loader (path ++ ["train"])).1 && (loader (path ++ ["test"])).1) ∧
    ((loader (path ++ ["val"])).1 = false →
      (loader_dataset_triplet loader path).2.2.1 = none) ∧
    ((loader (path ++ ["train"])).1 = true →
      (loader (path ++ ["test"])).1 = true →
      (loader_dataset_triplet loader path).1 = true) := by
  refine ⟨rfl, fun h => ?_, fun h1 h2 => ?_⟩
  · simp [loader_dataset_triplet, h]
  · simp [loader_dataset_triplet, h1, h2]

/-- A concrete element loader whose validation sub-load fails. -/
def valFailLoader : FsPath → Bool × Option ℕ := fun p =>
  if p = ["r", "val"] then (false, none) else (true, some 7)

theorem loader_dataset_triplet_spec_witness :
    (loader_dataset_triplet valFailLoader ["r"]).1 = true ∧
    (loader_dataset_triplet valFailLoader ["r"]).2.2.1 = none :=
  ⟨(loader_dataset_triplet_spec valFailLoader ["r"]).2.2 (by decide) (by decide),
   (loader_dataset_triplet_spec valFailLoader ["r"]).2.1 (by decide)⟩

/-- C6: for an element saver and bool-flagged loader pair that round-trips and
leaves other paths undisturbed, loading after saving a triplet reconstructs it
exactly when all three elements are present; when the validation element is
absent (and nothing was previously stored at the validation sub-path), the
reconstructed validation slot is also absent and the overall success flag is
still true. -/
theorem triplet_save_load_roundtrip {α : Type}
    (saver : α → FsPath → Store α → Store α)
    (loader : Store α → FsPath → Bool × Option α)
    (hround : ∀ (x : α) (p : FsPath) (fs : Store α),
      loader (saver x p fs) p = (true, some x))
    (hframe : ∀ (x : α) (p q : FsPath) (fs : Store α), q ≠ p →
      loader (saver x p fs) q = loader fs q)
    (ds : DatasetTriplet α) (path : FsPath) (fs : Store α)
    (hval : loader fs (path ++ ["val"]) = (false, none)) :
    loader_dataset_triplet (loader (saver_dataset_triplet saver ds path fs))
        path = (true, (some ds.train, ds.val, some ds.test)) := by
  have hne1 : path ++ ["train"] ≠ path ++ ["test"] := by simp
  have hne2 : path ++ ["val"] ≠ path ++ ["test"] := by simp
  have hne3 : path ++ ["val"] ≠ path ++ ["train"] := by simp
  have hne4 : path ++ ["train"] ≠ path ++ ["val"] := by simp
  rcases hv : ds.val with _ | v
  · have e1 : loader (saver_dataset_triplet saver ds path fs)
        (path ++ ["test"]) = (true, some ds.test) := by
      simp only [saver_dataset_triplet, hv]
      exact hround _ _ _
    have e2 : loader (saver_dataset_triplet saver ds path fs)
        (path ++ ["train"]) = (true, some ds.train) := by
      simp only [saver_dataset_triplet, hv]
      rw [hframe _ _ _ _ hne1]
      exact hround _ _ _
    have e3 : loader (saver_dataset_triplet saver ds path fs)
        (path ++ ["val"]) = (false, none) := by
      simp only [saver_dataset_triplet, hv]
      rw [hframe _ _ _ _ hne2, hframe _ _ _ _ hne3]
      exact hval
    simp [loader_dataset_triplet, e1, e2, e3]
  · have e1 : loader (saver_dataset_triplet saver ds path fs)
        (path ++ ["test"]) = (true, some ds.test) := by
      simp only [saver_dataset_triplet, hv]
      exact hround _ _ _
    have e2 : loader (saver_dataset_triplet saver ds path fs)
        (path ++ ["train"]) = (true, some ds.train) := by
      simp only [saver_dataset_triplet, hv]
      rw [hframe _ _ _ _ hne1, hframe _ _ _ _ hne4]
      exact hround _ _ _
    have e3 : loader (saver_dataset_triplet saver ds path fs)
        (path ++ ["val"]) = (true, some v) := by
      simp only [saver_dataset_triplet, hv]
      rw [hframe _ _ _ _ hne2]
      exact hround _ _ _
    simp [loader_dataset_triplet, e1, e2, e3, hv]

/-- A concrete element saver over the association-list store. -/
def elemSaver : ℕ → FsPath → Store ℕ → Store ℕ := fun x p fs =>
  Store.write fs p x

/-- A concrete bool-flagged element loader over the association-list store. -/
def elemLoader : Store ℕ → FsPath → Bool × Option ℕ := fun fs p =>
  match Store.read fs p with
  | some x => (true, some x)
  | none => (false, none)

lemma elemLoader_roundtrip : ∀ (x : ℕ) (p : FsPath) (fs : Store ℕ),
    elemLoader (elemSaver x p fs) p = (true, some x) := by
  intro x p fs
  simp [elemLoader, elemSaver, Store.write, Store.read]

lemma elemLoader_frame : ∀ (x : ℕ) (p q : FsPath) (fs : Store ℕ), q ≠ p →
    elemLoader (elemSaver x p fs) q = elemLoader fs q := by
  intro x p q fs h
  simp [elemLoader, elemSaver, Store.write, Store.read, Ne.symm h]

theorem triplet_save_load_roundtrip_witness :
    loader_dataset_triplet
        (elemLoader (saver_dataset_triplet elemSaver
          { train := 1, val := some 2, test := 3 } ["d"] [])) ["d"] =
      (true, (some 1, some 2, some 3)) :=
  triplet_save_load_roundtrip elemSaver elemLoader elemLoader_roundtrip
    elemLoader_frame { train := 1, val := some 2, test := 3 } ["d"] []
    (by decide)


/-! Helper lemmas about make_dataframe. -/

/-- The table make_dataframe derives for a record with a complete time
basis. -/
def derivedFrame (ev : ExperimentVideo) (d : VideoData) (fps : ℚ) (refIdx : ℤ)
    (refT : ℚ) : DataFrame :=
  { name := ev.name
    index := List.range ev.frameCount
    categories := d.categories
    elapsed_time := some (elapsedTimes fps refIdx refT (List.range ev.frameCount))
    path := if ev.pathColumn then some ev.frameFiles else none }

lemma make_dataframe_of_cached (ev : ExperimentVideo) (el et ip : Bool)
    (df : DataFrame) (hdf : ev.df = some df) :
    make_dataframe ev false el et ip = .ok (df, ev) := by
  simp [make_dataframe, hdf]

lemma deriveFrame_computes (ev : ExperimentVideo) (d : VideoData) (et ip : Bool)
    (fps : ℚ) (refIdx : ℤ) (refT : ℚ) (hfps : d.fps = some fps)
    (hri : d.ref_index = some refIdx) (hrt : d.ref_elapsed_time = some refT) :
    deriveFrame ev d et ip =
      .ok (derivedFrame ev d fps refIdx refT,
        if ip then { ev with df := some (derivedFrame ev d fps refIdx refT) }
        else ev) := by
  cases ip <;>
    simp [deriveFrame, hfps, hri, hrt, convert_dataframe_type, derivedFrame]

lemma make_dataframe_computes (ev : ExperimentVideo) (r el et ip : Bool)
    (d : VideoData) (fps : ℚ) (refIdx : ℤ) (refT : ℚ)
    (h1 : (if r then none else ev.df) = (none : Option DataFrame))
    (h2 : (if el then ev.dfFile else none) = (none : Option DataFrame))
    (hdata : ev.data = some d) (hfps : d.fps = some fps)
    (hri : d.ref_index = some refIdx) (hrt : d.ref_elapsed_time = some refT) :
    make_dataframe ev r el et ip =
      .ok (derivedFrame ev d fps refIdx refT,
        if ip then { ev with df := some (derivedFrame ev d fps refIdx refT) }
        else ev) := by
  unfold make_dataframe
  rw [h1, h2]
  show (match ev.data with
    | none => Except.error DfError.missingConfiguration
    | some data => deriveFrame ev data et ip) = _
  conv_lhs => rw [hdata]
  exact deriveFrame_computes ev d et ip fps refIdx refT hfps hri hrt

lemma deriveFrame_ok_caches (ev : ExperimentVideo) (d : VideoData) (et : Bool)
    (df : DataFrame) (ev2 : ExperimentVideo)
    (h : deriveFrame ev d et true = .ok (df, ev2)) :
    ev2.df = some df := by
  obtain ⟨cats, fps, ri, rt⟩ := d
  rcases fps with _ | fps <;> rcases ri with _ | ri <;> rcases rt with _ | rt <;>
    cases et <;>
      simp [deriveFrame, convert_dataframe_type] at h <;>
        (obtain ⟨h1, h2⟩ := h
         subst df
         subst ev2
         rfl)

lemma make_dataframe_ok_caches (ev : ExperimentVideo) (r el et : Bool)
    (df : DataFrame) (ev2 : ExperimentVideo)
    (h : make_dataframe ev r el et true = .ok (df, ev2)) :
    ev2.df = some df := by
  unfold make_dataframe at h
  split at h
  · rename_i df0 heq
    injection h with h
    injection h with h1 h2
    subst h1
    subst h2
    cases r with
    | true => simp at heq
    | false => simpa using heq
  · split at h
    · split at h
      · rename_i df0 heq
        injection h with h
        injection h with h1 h2
        subst h1
        subst h2
        simpa using heq
      · injection h with h
        injection h with h1 h2
        subst h1
        subst h2
        rfl
    · split at h
      · exact Except.noConfusion h
      · rename_i data heq
        exact deriveFrame_ok_caches ev data et df ev2 h

/-- C1: when neither a cached nor (if requested) a persisted table is
available and the VideoData of the record has its frame rate fps (positive; a
zero rate would raise a division error in Python before any table exists),
reference index and reference elapsed time all set, make_dataframe succeeds
and assigns to every retained frame index i the elapsed time
ref_elapsed_time + (1/fps) * (i - ref_index), an exact affine relation; the
type conversion leaves these values untouched, since the cast that would
round them to whole seconds is commented out in convert_dataframe_type. -/
theorem make_dataframe_elapsed_affine (ev : ExperimentVideo)
    (r el et ip : Bool) (d : VideoData) (fps : ℚ) (refIdx : ℤ) (refT : ℚ)
    (hdf : ev.df = none) (hfile : el = false ∨ ev.dfFile = none)
    (hdata : ev.data = some d) (hfps : d.fps = some fps) (_hfpos : 0 < fps)
    (hri : d.ref_index = some refIdx) (hrt : d.ref_elapsed_time = some refT) :
    ∃ p : DataFrame × ExperimentVideo,
      make_dataframe ev r el et ip = .ok p ∧
      p.1.index = List.range ev.frameCount ∧
      p.1.elapsed_time = some ((List.range ev.frameCount).map fun i : ℕ =>
        refT + 1 / fps * ((i : ℚ) - (refIdx : ℚ))) := by
  have h1 : (if r then none else ev.df) = (none : Option DataFrame) := by
    cases r <;> simp [hdf]
  have h2 : (if el then ev.dfFile else none) = (none : Option DataFrame) := by
    rcases hfile with h | h
    · subst h
      rfl
    · cases el <;> simp [h]
  exact ⟨_, make_dataframe_computes ev r el et ip d fps refIdx refT h1 h2
    hdata hfps hri hrt, by simp [derivedFrame], by simp [derivedFrame, elapsedTimes]⟩

/-- The VideoData of the spec example: frame rate 30, reference index 0,
reference elapsed time 0. -/
def videoData30 : VideoData :=
  { categories := []
    fps := some 30
    ref_index := some 0
    ref_elapsed_time := some 0 }

/-- The record of the spec example: frame count 10, nothing cached. -/
def evRate30 : ExperimentVideo :=
  { name := "GOPR"
    frameCount := 10
    data := some videoData30
    df := none
    dfFile := none
    pathColumn := false
    frameFiles := [] }

theorem make_dataframe_elapsed_affine_witness :
    ∃ p : DataFrame × ExperimentVideo,
      make_dataframe evRate30 false false false true = .ok p ∧
      p.1.index = List.range 10 ∧
      p.1.elapsed_time = some [0, 1/30, 2/30, 3/30, 4/30, 5/30, 6/30, 7/30,
        8/30, 9/30] := by
  obtain ⟨p, hp, hidx, he⟩ := make_dataframe_elapsed_affine evRate30
    false false false true videoData30 30 0 0 rfl (Or.inl rfl) rfl rfl
    (by norm_num) rfl rfl
  refine ⟨p, hp, hidx, ?_⟩
  rw [he]
  norm_num [evRate30, List.range_succ]

/-- C10: the cache check of make_dataframe precedes all validation: whenever a
table is cached and recalculate is false, the cached table is returned and no
error can be raised, whatever the VideoData, enforce_time and the cached
columns are; dually, an error result is reachable only when recalculate is
set or no table is cached. -/
theorem make_dataframe_cache_first (ev : ExperimentVideo) :
    (∀ (el et ip : Bool) (df : DataFrame), ev.df = some df →
      make_dataframe ev false el et ip = .ok (df, ev)) ∧
    (∀ (r el et ip : Bool) (e : DfError),
      make_dataframe ev r el et ip = .error e →
      r = true ∨ ev.df = none) := by
  constructor
  · intro el et ip df hdf
    exact make_dataframe_of_cached ev el et ip df hdf
  · intro r el et ip e h
    cases r with
    | true => exact Or.inl rfl
    | false =>
        cases hdf : ev.df with
        | none => exact Or.inr rfl
        | some df =>
            rw [make_dataframe_of_cached ev el et ip df hdf] at h
            exact absurd h (by simp)

/-- A cached table that has no elapsed-time column. -/
def plainDf : DataFrame :=
  { name := "v"
    index := [0, 1]
    categories := []
    elapsed_time := none
    path := none }

/-- A record with a cached table but no VideoData at all; its cached table
also lacks the elapsed-time column. -/
def evCachedNoData : ExperimentVideo :=
  { name := "v"
    frameCount := 2
    data := none
    df := some plainDf
    dfFile := none
    pathColumn := false
    frameFiles := [] }

theorem make_dataframe_cache_first_witness :
    make_dataframe evCachedNoData false false true true =
      .ok (plainDf, evCachedNoData) :=
  (make_dataframe_cache_first evCachedNoData).1 false true true plainDf rfl

/-- C9: make_dataframe is idempotent and memoized per record: any successful
inplace call leaves the returned table cached on the returned record, and a
second call without recalculate returns the identical table and state
unchanged; calling with recalculate set (and exist_load unset) forces
recomputation, so the result reflects the current VideoData even when a stale
table is cached. -/
theorem make_dataframe_memoized (ev : ExperimentVideo) :
    (∀ (r el et : Bool) (df : DataFrame) (ev2 : ExperimentVideo),
      make_dataframe ev r el et true = .ok (df, ev2) →
      ev2.df = some df ∧
      ∀ el2 et2 ip2 : Bool,
        make_dataframe ev2 false el2 et2 ip2 = .ok (df, ev2)) ∧
    (∀ (et ip : Bool) (d : VideoData) (fps : ℚ) (refIdx : ℤ) (refT : ℚ),
      ev.data = some d → d.fps = some fps → 0 < fps →
      d.ref_index = some refIdx → d.ref_elapsed_time = some refT →
      ∃ p : DataFrame × ExperimentVideo,
        make_dataframe ev true false et ip = .ok p ∧
        p.1.elapsed_time = some ((List.range ev.frameCount).map fun i : ℕ =>
          refT + 1 / fps * ((i : ℚ) - (refIdx : ℚ)))) := by
  constructor
  · intro r el et df ev2 h
    have hc := make_dataframe_ok_caches ev r el et df ev2 h
    exact ⟨hc, fun el2 et2 ip2 => make_dataframe_of_cached ev2 el2 et2 ip2 df hc⟩
  · intro et ip d fps refIdx refT hdata hfps _hpos hri hrt
    exact ⟨_, make_dataframe_computes ev true false et ip d fps refIdx refT
      rfl rfl hdata hfps hri hrt, by simp [derivedFrame, elapsedTimes]⟩

/-- The spec-example record with a stale table already cached. -/
def evStale : ExperimentVideo :=
  { evRate30 with df := some plainDf }

theorem make_dataframe_memoized_witness :
    ∃ p : DataFrame × ExperimentVideo,
      make_dataframe evStale true false false true = .ok p ∧
      p.1.elapsed_time = some ((List.range 10).map fun i : ℕ =>
        (0 : ℚ) + 1 / 30 * ((i : ℚ) - ((0 : ℤ) : ℚ))) :=
  (make_dataframe_memoized evStale).2 false true videoData30 30 0 0 rfl rfl
    (by norm_num) rfl rfl

/-- The old VideoData of the C5 scenario: frame rate 1, reference index 0,
reference elapsed time 0, so elapsed times [0, 1] over two frames. -/
def dataA : VideoData :=
  { categories := []
    fps := some 1
    ref_index := some 0
    ref_elapsed_time := some 0 }

/-- The replacement VideoData: reference elapsed time 100, so elapsed times
[100, 101] over two frames. -/
def dataB : VideoData :=
  { categories := []
    fps := some 1
    ref_index := some 0
    ref_elapsed_time := some 100 }

/-- A fresh two-frame record configured with dataA and nothing cached. -/
def evFresh : ExperimentVideo :=
  { name := "v"
    frameCount := 2
    data := some dataA
    df := none
    dfFile := none
    pathColumn := false
    frameFiles := [] }

/-- The elapsed-time column seen by a caller who derives the table of evFresh,
replaces the VideoData by dataB through set_video_data, and requests the table
again without recalculate. -/
def staleElapsed : Except DfError (Option (List ℚ)) := do
  let r1 ← make_dataframe evFresh false false false true
  let r2 ← make_dataframe (set_video_data r1.2 dataB) false false false true
  pure r2.1.elapsed_time

/-- The same scenario, but with recalculate set on the second request. -/
def freshElapsed : Except DfError (Option (List ℚ)) := do
  let r1 ← make_dataframe evFresh false false false true
  let r2 ← make_dataframe (set_video_data r1.2 dataB) true false false true
  pure r2.1.elapsed_time

/-- C5 counterexample: after the VideoData of a record with a cached table is
replaced through set_video_data, the next table request without recalculate
returns the stale elapsed times [0, 1] of the old VideoData rather than the
[100, 101] implied by the new one: set_video_data does not invalidate the
cached table. -/
theorem set_video_data_stale_counterexample :
    staleElapsed = .ok (some [0, 1]) ∧
    freshElapsed = .ok (some [100, 101]) ∧
    (some [(0 : ℚ), 1] : Option (List ℚ)) ≠ some [100, 101] := by
  have hfirst := make_dataframe_computes evFresh false false false true dataA
    1 0 0 rfl rfl rfl rfl rfl rfl
  have hsecond := make_dataframe_of_cached
    (set_video_data { evFresh with df := some (derivedFrame evFresh dataA 1 0 0) }
      dataB)
    false false true (derivedFrame evFresh dataA 1 0 0) rfl
  have hthird := make_dataframe_computes
    (set_video_data { evFresh with df := some (derivedFrame evFresh dataA 1 0 0) }
      dataB)
    true false false true dataB 1 0 100 rfl rfl rfl rfl rfl rfl
  refine ⟨?_, ?_, by norm_num⟩
  · rw [staleElapsed, hfirst]
    show (make_dataframe (set_video_data
      { evFresh with df := some (derivedFrame evFresh dataA 1 0 0) } dataB)
      false false false true).map (fun r2 => r2.1.elapsed_time) = _
    rw [hsecond]
    show Except.ok (derivedFrame evFresh dataA 1 0 0).elapsed_time = _
    norm_num [derivedFrame, elapsedTimes, evFresh, List.range_succ]
  · rw [freshElapsed, hfirst]
    show (make_dataframe (set_video_data
      { evFresh with df := some (derivedFrame evFresh dataA 1 0 0) } dataB)
      true false false true).map (fun r2 => r2.1.elapsed_time) = _
    rw [hthird]
    show Except.ok (derivedFrame (set_video_data
      { evFresh with df := some (derivedFrame evFresh dataA 1 0 0) } dataB)
      dataB 1 0 100).elapsed_time = _
    norm_num [derivedFrame, elapsedTimes, set_video_data, evFresh,
      List.range_succ]

/-- C5 amended: replacing VideoData through set_video_data does not invalidate
the cached table: the new data is stored but the cache is left unchanged, and
the next make_dataframe call without recalculate returns the stale cached
table rather than one reflecting the new VideoData; only an explicit
recalculate recomputes. -/
theorem set_video_data_keeps_cache (ev : ExperimentVideo) (d : VideoData)
    (el et ip : Bool) (df : DataFrame) (hdf : ev.df = some df) :
    (set_video_data ev d).df = some df ∧
    (set_video_data ev d).data = some d ∧
    make_dataframe (set_video_data ev d) false el et ip =
      .ok (df, set_video_data ev d) := by
  refine ⟨hdf, rfl, ?_⟩
  exact make_dataframe_of_cached (set_video_data ev d) el et ip df hdf

theorem set_video_data_keeps_cache_witness :
    (set_video_data evCachedNoData dataB).df = some plainDf ∧
    (set_video_data evCachedNoData dataB).data = some dataB ∧
    make_dataframe (set_video_data evCachedNoData dataB) false false false
      true = .ok (plainDf, set_video_data evCachedNoData dataB) :=
  set_video_data_keeps_cache evCachedNoData dataB false false true plainDf rfl

/-- A cache-less record without VideoData. -/
def evNoData : ExperimentVideo :=
  { name := "v"
    frameCount := 2
    data := none
    df := none
    dfFile := none
    pathColumn := false
    frameFiles := [] }

/-- VideoData whose time basis is incomplete: no frame rate. -/
def dataNoFps : VideoData :=
  { categories := []
    fps := none
    ref_index := some 0
    ref_elapsed_time := some 0 }

/-- A cache-less record whose VideoData lacks the frame rate. -/
def evNoTime : ExperimentVideo :=
  { evNoData with data := some dataNoFps }

/-- C7: make_dataframe on a cache-less record without VideoData raises the
missing-configuration error, and on a record with an incomplete time basis it
raises the missing-time-basis error when enforce_time is set, both as the
claim states; but with enforce_time unset it raises KeyError from
convert_dataframe_type, which unconditionally accesses the absent elapsed-time
column, instead of producing the table with that column simply omitted. -/
theorem make_dataframe_missing_time_keyerror :
    make_dataframe evNoData false false false true =
      .error .missingConfiguration ∧
    make_dataframe evNoTime false false true true =
      .error .missingTimeBasis ∧
    make_dataframe evNoTime false false false true = .error .keyError :=
  ⟨rfl, rfl, rfl⟩

end BoilingLearning
